import Mathlib

/-!
Shallow embedding of the Vue language-support extension (`src/vue.rs`).

The extension's effectful collaborators (filesystem probe for the server
binary, reading and parsing of `package.json`, the npm registry, the npm
installer, process current directory, worktree root) are modelled as an
explicit environment `Env`.  Each operation of the extension is translated
to a Lean function from the environment and the mutable extension state to
a result, the updated state, and a trace of the registry/install actions it
performed (`Event`), so that properties such as "performs zero registry
queries" are statable.
-/

namespace Vue

/-- `const SERVER_PATH` from `src/vue.rs`. -/
def SERVER_PATH : String := "node_modules/@vue/language-server/bin/vue-language-server.js"

/-- `const PACKAGE_NAME` from `src/vue.rs`. -/
def PACKAGE_NAME : String := "@vue/language-server"

/-- `const TYPESCRIPT_PACKAGE_NAME` from `src/vue.rs`. -/
def TYPESCRIPT_PACKAGE_NAME : String := "typescript"

/-- `const TS_PLUGIN_PACKAGE_NAME` from `src/vue.rs`. -/
def TS_PLUGIN_PACKAGE_NAME : String := "@vue/typescript-plugin"

/-- `const TYPESCRIPT_TSDK_PATH` from `src/vue.rs`. -/
def TYPESCRIPT_TSDK_PATH : String := "node_modules/typescript/lib"

/-- The hardcoded primary-server version `"2.2.8"` (line 56 of `src/vue.rs`). -/
def PINNED_SERVER_VERSION : String := "2.2.8"

/-- `struct PackageJson`: the two dependency mappings, each defaulting to
empty.  The code only ever queries key membership, but we keep the
name-to-version-spec association of the source. -/
structure PackageJson where
  dependencies : List (String × String)
  dev_dependencies : List (String × String)
deriving Repr, DecidableEq

/-- `HashMap::contains_key` on the association-list model of a mapping. -/
def containsKey (m : List (String × String)) (k : String) : Bool :=
  m.any (fun p => p.1 = k)

deriving instance DecidableEq for Except

/-- One observable registry/installer action performed during a call:
an installed-version lookup, a latest-version lookup, or an install
attempt, each recorded together with the collaborator's answer. -/
inductive Event where
  | queryInstalled (pkg : String) (result : Except String (Option String))
  | queryLatest (pkg : String) (result : Except String String)
  | installPkg (pkg : String) (version : String) (result : Except String Unit)
deriving Repr, DecidableEq

/-- The package an event is about. -/
def Event.pkg : Event → String
  | .queryInstalled p _ => p
  | .queryLatest p _ => p
  | .installPkg p _ _ => p

/-- Whether an event is a registry version query (as opposed to an
install attempt). -/
def Event.isRegistryQuery : Event → Bool
  | .queryInstalled _ _ => true
  | .queryLatest _ _ => true
  | .installPkg _ _ _ => false

/-- Whether an event is a failed registry query about the companion
plugin package. -/
def Event.isFailedPluginQuery : Event → Bool
  | .queryInstalled p (.error _) => p = TS_PLUGIN_PACKAGE_NAME
  | .queryLatest p (.error _) => p = TS_PLUGIN_PACKAGE_NAME
  | _ => false

/-- The environment: every host/collaborator capability the extension
calls out to.  `serverExistsBefore` is the answer of the
`fs::metadata(SERVER_PATH)` probe at the start of a resolution call;
`serverExistsAfter` is its answer when probed again right after a
primary-server install attempt (the install may have changed the disk).
`readPackageJson` is `worktree.read_text_file("package.json")`;
`parsePackageJson` models the external `serde_json::from_str` library;
`installedVersion`, `latestVersion` and `installPackage` model the npm
registry and installer; `currentDir` is `env::current_dir()` and
`worktreeRootPath` is `worktree.root_path()`. -/
structure Env where
  serverExistsBefore : Bool
  serverExistsAfter : Bool
  readPackageJson : Except String String
  parsePackageJson : String → Except String PackageJson
  installedVersion : String → Except String (Option String)
  latestVersion : String → Except String String
  installPackage : String → String → Except String Unit
  currentDir : String
  worktreeRootPath : String

/-- `struct VueExtension`: the per-session mutable state. -/
structure VueExtension where
  did_find_server : Bool
  typescript_tsdk_path : String
deriving Repr, DecidableEq

/-- `VueExtension::new` (`fn new` of the `zed::Extension` impl). -/
def VueExtension.new : VueExtension :=
  { did_find_server := false, typescript_tsdk_path := TYPESCRIPT_TSDK_PATH }

/-- `Result::unwrap_or_default` on a `Result<bool, _>`: `false` on error. -/
def unwrapOrDefault (r : Except String Bool) : Bool :=
  match r with
  | .ok b => b
  | .error _ => false

/-- Path join of the current directory with a relative path
(`sanitize_windows_path(env::current_dir()).join(..)`; the sanitizer is
the identity on macOS/Linux, which is the platform we model). -/
def joinPath (dir path : String) : String := dir ++ "/" ++ path

/-- `fn typescript_exists_for_worktree`: read `package.json` through the
worktree, parse it, and report whether `typescript` is a key of either
dependency mapping.  Read and parse errors propagate; the parse error is
wrapped in the "failed to parse package.json" message. -/
def typescript_exists_for_worktree (env : Env) : Except String Bool :=
  match env.readPackageJson with
  | .error e => .error e
  | .ok txt =>
    match env.parsePackageJson txt with
    | .error err => .error ("failed to parse package.json: " ++ err)
    | .ok package_json =>
      .ok (containsKey package_json.dev_dependencies TYPESCRIPT_PACKAGE_NAME
        || containsKey package_json.dependencies TYPESCRIPT_PACKAGE_NAME)

/-- The body of `fn install_typescript_if_needed` past the local-copy
check (lines 112-128 of `src/vue.rs`): query installed and latest
TypeScript versions, install when they differ, then set
`typescript_tsdk_path` to the absolute bundled SDK path. -/
def install_typescript_core (env : Env) (self : VueExtension) :
    Except String Unit × VueExtension × List Event :=
  match env.installedVersion TYPESCRIPT_PACKAGE_NAME with
  | .error e => (.error e, self, [.queryInstalled TYPESCRIPT_PACKAGE_NAME (.error e)])
  | .ok installed_typescript_version =>
    let ev1 := Event.queryInstalled TYPESCRIPT_PACKAGE_NAME (.ok installed_typescript_version)
    match env.latestVersion TYPESCRIPT_PACKAGE_NAME with
    | .error e => (.error e, self, [ev1, .queryLatest TYPESCRIPT_PACKAGE_NAME (.error e)])
    | .ok latest_typescript_version =>
      let ev2 := Event.queryLatest TYPESCRIPT_PACKAGE_NAME (.ok latest_typescript_version)
      if installed_typescript_version ≠ some latest_typescript_version then
        match env.installPackage TYPESCRIPT_PACKAGE_NAME latest_typescript_version with
        | .error e =>
          (.error e, self,
            [ev1, ev2, .installPkg TYPESCRIPT_PACKAGE_NAME latest_typescript_version (.error e)])
        | .ok _ =>
          (.ok (),
            { self with
              typescript_tsdk_path := joinPath env.currentDir TYPESCRIPT_TSDK_PATH },
            [ev1, ev2, .installPkg TYPESCRIPT_PACKAGE_NAME latest_typescript_version (.ok ())])
      else
        (.ok (),
          { self with typescript_tsdk_path := joinPath env.currentDir TYPESCRIPT_TSDK_PATH },
          [ev1, ev2])

/-- `fn install_typescript_if_needed`: if the worktree declares its own
`typescript` dependency (errors of that check swallowed by
`unwrap_or_default`), do nothing; otherwise run the install logic. -/
def install_typescript_if_needed (env : Env) (self : VueExtension) :
    Except String Unit × VueExtension × List Event :=
  if unwrapOrDefault (typescript_exists_for_worktree env) then
    (.ok (), self, [])
  else
    install_typescript_core env self

/-- `fn install_ts_plugin_if_needed`: query installed and latest versions
of the companion plugin and install when they differ.  Mutates no state. -/
def install_ts_plugin_if_needed (env : Env) :
    Except String Unit × List Event :=
  match env.installedVersion TS_PLUGIN_PACKAGE_NAME with
  | .error e => (.error e, [.queryInstalled TS_PLUGIN_PACKAGE_NAME (.error e)])
  | .ok installed_plugin_version =>
    let ev1 := Event.queryInstalled TS_PLUGIN_PACKAGE_NAME (.ok installed_plugin_version)
    match env.latestVersion TS_PLUGIN_PACKAGE_NAME with
    | .error e => (.error e, [ev1, .queryLatest TS_PLUGIN_PACKAGE_NAME (.error e)])
    | .ok latest_plugin_version =>
      let ev2 := Event.queryLatest TS_PLUGIN_PACKAGE_NAME (.ok latest_plugin_version)
      if installed_plugin_version ≠ some latest_plugin_version then
        (match env.installPackage TS_PLUGIN_PACKAGE_NAME latest_plugin_version with
          | .error e =>
            (.error e,
              [ev1, ev2, .installPkg TS_PLUGIN_PACKAGE_NAME latest_plugin_version (.error e)])
          | .ok _ =>
            (.ok (),
              [ev1, ev2, .installPkg TS_PLUGIN_PACKAGE_NAME latest_plugin_version (.ok ())]))
      else
        (.ok (), [ev1, ev2])

/-- Lines 82-84 of `src/vue.rs`: the tail of the slow path after the
primary-server block — install TypeScript if needed, set
`did_find_server`, and return the server path. -/
def finish_slow_path (env : Env) (self : VueExtension) (tr : List Event) :
    Except String String × VueExtension × List Event :=
  match install_typescript_if_needed env self with
  | (.error e, s, tr2) => (.error e, s, tr ++ tr2)
  | (.ok _, s, tr2) =>
    (.ok SERVER_PATH, { s with did_find_server := true }, tr ++ tr2)

/-- Lines 65-79 of `src/vue.rs`: attempt `npm_install_package` of the
pinned primary-server version, with the partial-success policy — a
reported failure (or an install that did not produce the binary) is fatal
only when the binary is absent from disk afterwards. -/
def primary_install_then_finish (env : Env) (self : VueExtension) (tr : List Event) :
    Except String String × VueExtension × List Event :=
  match env.installPackage PACKAGE_NAME PINNED_SERVER_VERSION with
  | .ok _ =>
    let tr := tr ++ [Event.installPkg PACKAGE_NAME PINNED_SERVER_VERSION (.ok ())]
    if !env.serverExistsAfter then
      (.error ("installed package " ++ PACKAGE_NAME ++ " did not contain expected path "
          ++ SERVER_PATH), self, tr)
    else
      finish_slow_path env self tr
  | .error e =>
    let tr := tr ++ [Event.installPkg PACKAGE_NAME PINNED_SERVER_VERSION (.error e)]
    if !env.serverExistsAfter then
      (.error e, self, tr)
    else
      finish_slow_path env self tr

/-- `fn server_script_path`: the resolution operation.  Fast path when the
server was already found in this session and the binary exists; otherwise
the slow path with the pinned-version check and conditional install.  The
`||` of line 58 short-circuits: when the binary is absent, the installed
version is not queried. -/
def server_script_path (env : Env) (self : VueExtension) :
    Except String String × VueExtension × List Event :=
  let server_exists := env.serverExistsBefore
  if self.did_find_server && server_exists then
    match install_typescript_if_needed env self with
    | (.error e, s, tr) => (.error e, s, tr)
    | (.ok _, s, tr) =>
      match install_ts_plugin_if_needed env with
      | (.error e, tr2) => (.error e, s, tr ++ tr2)
      | (.ok _, tr2) => (.ok SERVER_PATH, s, tr ++ tr2)
  else
    if !server_exists then
      primary_install_then_finish env self []
    else
      match env.installedVersion PACKAGE_NAME with
      | .error e => (.error e, self, [.queryInstalled PACKAGE_NAME (.error e)])
      | .ok iv =>
        let ev := Event.queryInstalled PACKAGE_NAME (.ok iv)
        if iv ≠ some PINNED_SERVER_VERSION then
          primary_install_then_finish env self [ev]
        else
          finish_slow_path env self [ev]

/-- `fn get_ts_plugin_root_path`: `None` when the project declares the
companion plugin itself, otherwise the process current directory. -/
def get_ts_plugin_root_path (env : Env) : Except String (Option String) :=
  match env.readPackageJson with
  | .error e => .error e
  | .ok txt =>
    match env.parsePackageJson txt with
    | .error err => .error ("failed to parse package.json: " ++ err)
    | .ok package_json =>
      if containsKey package_json.dev_dependencies TS_PLUGIN_PACKAGE_NAME
          || containsKey package_json.dependencies TS_PLUGIN_PACKAGE_NAME then
        .ok none
      else
        .ok (some env.currentDir)

/-- A JSON value, for the configuration payloads built with `json!`. -/
inductive Json where
  | str (s : String)
  | bool (b : Bool)
  | arr (elems : List Json)
  | obj (fields : List (String × Json))

/-- Field lookup in a JSON object. -/
def Json.getField : Json → String → Option Json
  | .obj fields, k => (fields.find? (fun p => p.1 = k)).map (fun p => p.2)
  | _, _ => none

/-- First element of a JSON array. -/
def Json.headElem : Json → Option Json
  | .arr elems => elems.head?
  | _ => none

/-- The string held by a JSON string value. -/
def Json.asString : Json → Option String
  | .str s => some s
  | _ => none

/-- `fn language_server_additional_initialization_options`: for the
`typescript-language-server` target, a `plugins` payload whose `location`
is the plugin root path, with the worktree root as fallback when that is
`None`; for any other target, no payload. -/
def language_server_additional_initialization_options (env : Env)
    (target_language_server_id : String) : Except String (Option Json) :=
  if target_language_server_id = "typescript-language-server" then
    match get_ts_plugin_root_path env with
    | .error e => .error e
    | .ok root =>
      .ok (some (Json.obj
        [("plugins", Json.arr
          [Json.obj
            [("name", Json.str TS_PLUGIN_PACKAGE_NAME),
             ("location", Json.str (root.getD env.worktreeRootPath)),
             ("languages", Json.arr [Json.str "typescript", Json.str "vue.js"])]])]))
  else
    .ok none

/-- `fn language_server_additional_workspace_configuration`: for the
`vtsls` target, a `vtsls.tsserver.globalPlugins` payload whose `location`
is the plugin root path, with the worktree root as fallback; for any other
target, no payload. -/
def language_server_additional_workspace_configuration (env : Env)
    (target_language_server_id : String) : Except String (Option Json) :=
  if target_language_server_id = "vtsls" then
    match get_ts_plugin_root_path env with
    | .error e => .error e
    | .ok root =>
      .ok (some (Json.obj
        [("vtsls", Json.obj
          [("tsserver", Json.obj
            [("globalPlugins", Json.arr
              [Json.obj
                [("name", Json.str TS_PLUGIN_PACKAGE_NAME),
                 ("location", Json.str (root.getD env.worktreeRootPath)),
                 ("enableForWorkspaceTypeScriptVersions", Json.bool true),
                 ("languages", Json.arr [Json.str "typescript", Json.str "vue.js"])]])])])]))
  else
    .ok none

/-- The `location` of the plugin entry in an initialization-options
payload (`plugins[0].location`). -/
def initOptionsPluginLocation (payload : Option Json) : Option String :=
  payload.bind (fun j => j.getField "plugins")
    |>.bind Json.headElem
    |>.bind (fun j => j.getField "location")
    |>.bind Json.asString

/-- The `location` of the plugin entry in a workspace-configuration
payload (`vtsls.tsserver.globalPlugins[0].location`). -/
def workspaceConfigPluginLocation (payload : Option Json) : Option String :=
  payload.bind (fun j => j.getField "vtsls")
    |>.bind (fun j => j.getField "tsserver")
    |>.bind (fun j => j.getField "globalPlugins")
    |>.bind Json.headElem
    |>.bind (fun j => j.getField "location")
    |>.bind Json.asString

/-- `zed::lsp::CompletionKind`: the LSP completion-item kinds. -/
inductive CompletionKind where
  | Text
  | Method
  | Function
  | Constructor
  | Field
  | Variable
  | Class
  | Interface
  | Module
  | Property
  | Unit
  | Value
  | Enum
  | Keyword
  | Snippet
  | Color
  | File
  | Reference
  | Folder
  | EnumMember
  | Constant
  | Struct
  | Event
  | Operator
  | TypeParameter
deriving Repr, DecidableEq

/-- The fields of `zed::lsp::Completion` that `label_for_completion`
reads. -/
structure Completion where
  label : String
  detail : Option String
  kind : Option CompletionKind
deriving Repr, DecidableEq

/-- A literal `zed::CodeLabelSpan` (the only constructor the code uses). -/
structure CodeLabelSpan where
  text : String
  highlight_name : Option String
deriving Repr, DecidableEq

/-- `CodeLabelSpan::literal`. -/
def CodeLabelSpan.literal (text : String) (highlight_name : Option String) : CodeLabelSpan :=
  { text := text, highlight_name := highlight_name }

/-- `zed::CodeLabel`: `filter_range` is a half-open byte range
`(start, stop)`. -/
structure CodeLabel where
  code : String
  spans : List CodeLabelSpan
  filter_range : Nat × Nat
deriving Repr, DecidableEq

/-- The `match completion.kind?` table of `fn label_for_completion`
(lines 263-273 of `src/vue.rs`): the highlight name for a completion
kind, `none` for the kinds of the catch-all arm. -/
def highlight_name_for : CompletionKind → Option String
  | .Class | .Interface => some "type"
  | .Constructor => some "type"
  | .Constant => some "constant"
  | .Function | .Method => some "function"
  | .Property | .Field => some "tag"
  | .Variable => some "type"
  | .Keyword => some "keyword"
  | .Value => some "tag"
  | _ => none

/-- `fn label_for_completion`: `None` when the completion has no kind or
the kind has no highlight mapping; otherwise a label whose spans are the
name (highlighted) optionally followed by a space and the detail, and
whose filter range is `0..label.len()` — `len` being the Rust byte
length, i.e. the UTF-8 byte size. -/
def label_for_completion (completion : Completion) : Option CodeLabel :=
  match completion.kind with
  | none => none
  | some kind =>
    match highlight_name_for kind with
    | none => none
    | some highlight_name =>
      let len := completion.label.utf8ByteSize
      let name_span := CodeLabelSpan.literal completion.label (some highlight_name)
      some
        { code := ""
          spans :=
            match completion.detail with
            | some detail =>
              [name_span, CodeLabelSpan.literal " " none, CodeLabelSpan.literal detail none]
            | none => [name_span]
          filter_range := (0, len) }

end Vue

namespace Vue

/-- Whether a resolution result is an error. -/
def resolutionFailed (r : Except String String) : Bool :=
  match r with
  | .error _ => true
  | .ok _ => false

/-- The highlight name carried by the first span of the label produced
for a completion, when a label is produced at all. -/
def labelHighlight (completion : Completion) : Option String :=
  (label_for_completion completion).bind
    (fun l => l.spans.head?.bind (fun sp => sp.highlight_name))

/-- A manifest with empty dependency mappings. -/
def pj_empty : PackageJson := { dependencies := [], dev_dependencies := [] }

/-- A manifest declaring `typescript` among its dependencies. -/
def pj_with_typescript : PackageJson :=
  { dependencies := [("typescript", "^5.0.0")], dev_dependencies := [] }

/-- A manifest declaring the companion plugin among its dependencies. -/
def pj_with_plugin : PackageJson :=
  { dependencies := [("@vue/typescript-plugin", "1.0.0")], dev_dependencies := [] }

/-- A session state in which the server was already found. -/
def extFound : VueExtension :=
  { did_find_server := true, typescript_tsdk_path := TYPESCRIPT_TSDK_PATH }

/-- Environment: server binary present at the pinned version, manifest
declaring `typescript`, plugin registry reporting an up-to-date plugin. -/
def envC1 : Env :=
  { serverExistsBefore := true
    serverExistsAfter := true
    readPackageJson := .ok "pkg"
    parsePackageJson := fun _ => .ok pj_with_typescript
    installedVersion := fun p =>
      if p = PACKAGE_NAME then .ok (some "2.2.8") else .ok (some "1.0.0")
    latestVersion := fun _ => .ok "1.0.0"
    installPackage := fun _ _ => .ok ()
    currentDir := "/ext/work"
    worktreeRootPath := "/home/project" }

/-- Environment: server binary absent, primary install fails but the
binary appears on disk anyway, empty manifest, TypeScript registry
unreachable. -/
def envC2 : Env :=
  { serverExistsBefore := false
    serverExistsAfter := true
    readPackageJson := .ok "pkg"
    parsePackageJson := fun _ => .ok pj_empty
    installedVersion := fun p =>
      if p = PACKAGE_NAME then .ok none else .error "net down"
    latestVersion := fun _ => .ok "5.0.0"
    installPackage := fun _ _ => .error "boom"
    currentDir := "/ext/work"
    worktreeRootPath := "/home/project" }

/-- Environment for the first-resolution scenario: server present at the
pinned version and manifest declaring `typescript`. -/
def envC3 : Env :=
  { serverExistsBefore := true
    serverExistsAfter := true
    readPackageJson := .ok "pkg"
    parsePackageJson := fun _ => .ok pj_with_typescript
    installedVersion := fun p =>
      if p = PACKAGE_NAME then .ok (some "2.2.8") else .ok (some "1.0.0")
    latestVersion := fun _ => .ok "1.0.0"
    installPackage := fun _ _ => .ok ()
    currentDir := "/ext/work"
    worktreeRootPath := "/home/project" }

/-- Environment in which the companion plugin is out of date. -/
def envC3w : Env :=
  { serverExistsBefore := true
    serverExistsAfter := true
    readPackageJson := .ok "pkg"
    parsePackageJson := fun _ => .ok pj_with_typescript
    installedVersion := fun p =>
      if p = PACKAGE_NAME then .ok (some "2.2.8") else .ok (some "0.9.0")
    latestVersion := fun _ => .ok "1.0.0"
    installPackage := fun _ _ => .ok ()
    currentDir := "/ext/work"
    worktreeRootPath := "/home/project" }

/-- Environment in which the companion-plugin registry query fails. -/
def envC4 : Env :=
  { serverExistsBefore := true
    serverExistsAfter := true
    readPackageJson := .ok "pkg"
    parsePackageJson := fun _ => .ok pj_with_typescript
    installedVersion := fun p =>
      if p = TS_PLUGIN_PACKAGE_NAME then .error "down" else .ok (some "2.2.8")
    latestVersion := fun _ => .ok "1.0.0"
    installPackage := fun _ _ => .ok ()
    currentDir := "/ext/work"
    worktreeRootPath := "/home/project" }

/-- Environment whose manifest does not declare the companion plugin. -/
def envC5 : Env :=
  { serverExistsBefore := true
    serverExistsAfter := true
    readPackageJson := .ok "pkg"
    parsePackageJson := fun _ => .ok pj_empty
    installedVersion := fun _ => .ok (some "1.0.0")
    latestVersion := fun _ => .ok "1.0.0"
    installPackage := fun _ _ => .ok ()
    currentDir := "/ext/work"
    worktreeRootPath := "/home/project" }

/-- Environment whose manifest declares the companion plugin. -/
def envC5b : Env :=
  { serverExistsBefore := true
    serverExistsAfter := true
    readPackageJson := .ok "pkg"
    parsePackageJson := fun _ => .ok pj_with_plugin
    installedVersion := fun _ => .ok (some "1.0.0")
    latestVersion := fun _ => .ok "1.0.0"
    installPackage := fun _ _ => .ok ()
    currentDir := "/ext/work"
    worktreeRootPath := "/home/project" }

/-- Environment for the declared-typescript scenario (identical to
`envC3`; named separately for the claim it serves). -/
def envC6 : Env :=
  { serverExistsBefore := true
    serverExistsAfter := true
    readPackageJson := .ok "pkg"
    parsePackageJson := fun _ => .ok pj_with_typescript
    installedVersion := fun p =>
      if p = PACKAGE_NAME then .ok (some "2.2.8") else .ok (some "1.0.0")
    latestVersion := fun _ => .ok "1.0.0"
    installPackage := fun _ _ => .ok ()
    currentDir := "/ext/work"
    worktreeRootPath := "/home/project" }

/-- Environment with a malformed manifest but an otherwise healthy
server installation and registry. -/
def envC7 : Env :=
  { serverExistsBefore := true
    serverExistsAfter := true
    readPackageJson := .ok "not json"
    parsePackageJson := fun _ => .error "bad"
    installedVersion := fun p =>
      if p = PACKAGE_NAME then .ok (some "2.2.8") else .ok (some "5.0.0")
    latestVersion := fun _ => .ok "5.0.0"
    installPackage := fun _ _ => .ok ()
    currentDir := "/ext/work"
    worktreeRootPath := "/home/project" }

end Vue

namespace Vue

set_option maxHeartbeats 2000000

/-- Characterization of `install_typescript_if_needed`: it never touches
`did_find_server`, leaves the state unchanged on error, sets the SDK path
on success (unless the project declares `typescript`), and all its events
concern the `typescript` package. -/
theorem its_char (env : Env) (self : VueExtension) :
    (install_typescript_if_needed env self).2.1.did_find_server = self.did_find_server
  ∧ (∀ e, (install_typescript_if_needed env self).1 = .error e →
      (install_typescript_if_needed env self).2.1 = self)
  ∧ ((install_typescript_if_needed env self).1 = .ok () →
      (install_typescript_if_needed env self).2.1.typescript_tsdk_path =
        (if unwrapOrDefault (typescript_exists_for_worktree env) then self.typescript_tsdk_path
          else joinPath env.currentDir TYPESCRIPT_TSDK_PATH))
  ∧ (∀ ev ∈ (install_typescript_if_needed env self).2.2, ev.pkg = TYPESCRIPT_PACKAGE_NAME) := by
  unfold install_typescript_if_needed install_typescript_core
  repeat' split
  all_goals simp_all [Event.pkg]

/-- When the worktree declares `typescript`, the install step is a no-op. -/
theorem its_skip (env : Env) (self : VueExtension)
    (h : unwrapOrDefault (typescript_exists_for_worktree env) = true) :
    install_typescript_if_needed env self = (.ok (), self, []) := by
  simp [install_typescript_if_needed, h]

/-- An event about another package is never a failed plugin query. -/
theorem pkg_ne_plugin_not_failed (ev : Event)
    (h : ev.pkg ≠ TS_PLUGIN_PACKAGE_NAME) : ev.isFailedPluginQuery = false := by
  cases ev with
  | queryInstalled p r => cases r <;> simp_all [Event.pkg, Event.isFailedPluginQuery]
  | queryLatest p r => cases r <;> simp_all [Event.pkg, Event.isFailedPluginQuery]
  | installPkg p v r => rfl

/-- Characterization of `install_ts_plugin_if_needed`: all its events
concern the plugin package, a successful run contains no failed plugin
query, the installed-version query is always in its trace, the
latest-version query whenever the first query succeeded, and an install
attempt whenever the two versions differ. -/
theorem itp_char (env : Env) :
    (∀ ev ∈ (install_ts_plugin_if_needed env).2, ev.pkg = TS_PLUGIN_PACKAGE_NAME)
  ∧ ((install_ts_plugin_if_needed env).1 = .ok () →
      ∀ ev ∈ (install_ts_plugin_if_needed env).2, ev.isFailedPluginQuery = false)
  ∧ Event.queryInstalled TS_PLUGIN_PACKAGE_NAME (env.installedVersion TS_PLUGIN_PACKAGE_NAME) ∈
      (install_ts_plugin_if_needed env).2
  ∧ (∀ iv, env.installedVersion TS_PLUGIN_PACKAGE_NAME = .ok iv →
      Event.queryLatest TS_PLUGIN_PACKAGE_NAME (env.latestVersion TS_PLUGIN_PACKAGE_NAME) ∈
        (install_ts_plugin_if_needed env).2)
  ∧ (∀ iv lv, env.installedVersion TS_PLUGIN_PACKAGE_NAME = .ok iv →
      env.latestVersion TS_PLUGIN_PACKAGE_NAME = .ok lv → iv ≠ some lv →
      Event.installPkg TS_PLUGIN_PACKAGE_NAME lv (env.installPackage TS_PLUGIN_PACKAGE_NAME lv) ∈
        (install_ts_plugin_if_needed env).2) := by
  unfold install_ts_plugin_if_needed
  repeat' split
  all_goals simp_all [Event.pkg, Event.isFailedPluginQuery]

/-- A successful resolution returns the fixed server path, implies the
TypeScript step succeeded, marks the server as found, and carries the SDK
path computed by the TypeScript step. -/
theorem ssp_ok_char (env : Env) (self : VueExtension) (p : String)
    (hp : (server_script_path env self).1 = .ok p) :
      p = SERVER_PATH
      ∧ (install_typescript_if_needed env self).1 = .ok ()
      ∧ (server_script_path env self).2.1.did_find_server = true
      ∧ (server_script_path env self).2.1.typescript_tsdk_path =
          (install_typescript_if_needed env self).2.1.typescript_tsdk_path := by
  obtain ⟨hdf, herr, htsdk, hevs⟩ := its_char env self
  unfold server_script_path primary_install_then_finish finish_slow_path at hp ⊢
  repeat' split
  all_goals simp_all
  all_goals (repeat' split at hp)
  all_goals simp_all

/-- A resolution call either leaves the session state untouched or its
final SDK path is the one computed by the TypeScript step. -/
theorem ssp_state_or_tsdk (env : Env) (self : VueExtension) :
    (server_script_path env self).2.1 = self ∨
      (server_script_path env self).2.1.typescript_tsdk_path =
        (install_typescript_if_needed env self).2.1.typescript_tsdk_path := by
  obtain ⟨hdf, herr, htsdk, hevs⟩ := its_char env self
  unfold server_script_path primary_install_then_finish finish_slow_path
  repeat' split
  all_goals simp_all
  all_goals (repeat' split)
  all_goals simp_all

/-- Every event of a resolution call concerns the primary server package
or stems from the TypeScript step or from the plugin step. -/
theorem ssp_events (env : Env) (self : VueExtension) (ev : Event)
    (hev : ev ∈ (server_script_path env self).2.2) :
    ev.pkg = PACKAGE_NAME ∨ ev ∈ (install_typescript_if_needed env self).2.2 ∨
      ev ∈ (install_ts_plugin_if_needed env).2 := by
  unfold server_script_path primary_install_then_finish finish_slow_path at hev
  repeat' split at hev
  all_goals simp_all [Event.pkg]
  all_goals (repeat' split at hev)
  all_goals simp_all [Event.pkg]
  all_goals casesm* _ ∨ _
  all_goals simp_all [Event.pkg]

/-- On the fast path, every event stems from the TypeScript step or the
plugin step. -/
theorem ssp_fast_events (env : Env) (self : VueExtension) (ev : Event)
    (hfind : self.did_find_server = true) (hex : env.serverExistsBefore = true)
    (hev : ev ∈ (server_script_path env self).2.2) :
    ev ∈ (install_typescript_if_needed env self).2.2 ∨
      ev ∈ (install_ts_plugin_if_needed env).2 := by
  simp only [server_script_path, hfind, hex, Bool.and_self, if_true, reduceIte] at hev
  repeat' split at hev
  all_goals simp_all

/-- On the fast path, once the TypeScript step succeeded, the plugin
step's trace is contained in the resolution trace. -/
theorem ssp_fast_itp_sub (env : Env) (self : VueExtension) (x : Event)
    (hfind : self.did_find_server = true) (hex : env.serverExistsBefore = true)
    (hts : (install_typescript_if_needed env self).1 = .ok ())
    (hx : x ∈ (install_ts_plugin_if_needed env).2) :
    x ∈ (server_script_path env self).2.2 := by
  simp only [server_script_path, hfind, hex, Bool.and_self, if_true, reduceIte]
  repeat' split
  all_goals simp_all

/-- A successful resolution call records no failed plugin query. -/
theorem ssp_ok_no_failed (env : Env) (self : VueExtension) (p : String) (ev : Event)
    (hp : (server_script_path env self).1 = .ok p)
    (hev : ev ∈ (server_script_path env self).2.2) :
    ev.isFailedPluginQuery = false := by
  have htse := (its_char env self).2.2.2
  have htsf : ∀ x ∈ (install_typescript_if_needed env self).2.2, x.isFailedPluginQuery = false :=
    fun x hx => pkg_ne_plugin_not_failed x (by rw [htse x hx]; decide)
  have hitp := (itp_char env).2.1
  clear htse
  unfold server_script_path primary_install_then_finish finish_slow_path at hp hev
  repeat' split at hev
  all_goals simp_all
  all_goals (repeat' split at hev)
  all_goals simp_all
  all_goals casesm* _ ∨ _
  all_goals subst_vars
  all_goals
    first
      | rfl
      | (apply hitp; assumption)
      | (apply htsf; assumption)

end Vue

namespace Vue

set_option maxHeartbeats 2000000

/-- Claim C1 (amended): after a successful resolution, a second call in
the same session with the server binary present performs zero
primary-server registry queries and zero primary-server install attempts
and, when it succeeds, returns the same resolved server path and the same
SDK path; it does, however, re-run the TypeScript and companion-plugin
verification steps, whose registry queries appear in its trace. -/
theorem second_resolution_fast_path (env : Env) (self : VueExtension) (p q : String) (ev : Event)
    (h1 : (server_script_path env self).1 = .ok p)
    (hex : env.serverExistsBefore = true)
    (hq : (server_script_path env (server_script_path env self).2.1).1 = .ok q)
    (hev : ev ∈ (server_script_path env (server_script_path env self).2.1).2.2) :
    p = SERVER_PATH ∧ q = SERVER_PATH
  ∧ ev.pkg ≠ PACKAGE_NAME
  ∧ (server_script_path env (server_script_path env self).2.1).2.1.typescript_tsdk_path =
      (server_script_path env self).2.1.typescript_tsdk_path := by
  obtain ⟨hp1, hts1, hdf1, htsdk1⟩ := ssp_ok_char env self p h1
  obtain ⟨hp2, hts2, hdf2, htsdk2⟩ :=
    ssp_ok_char env (server_script_path env self).2.1 q hq
  refine ⟨hp1, hp2, ?_, ?_⟩
  · rcases ssp_fast_events env (server_script_path env self).2.1 ev hdf1 hex hev with h | h
    · rw [(its_char env (server_script_path env self).2.1).2.2.2 ev h]; decide
    · rw [(itp_char env).1 ev h]; decide
  · have f1 := (its_char env self).2.2.1 hts1
    have f2 := (its_char env (server_script_path env self).2.1).2.2.1 hts2
    by_cases hu : unwrapOrDefault (typescript_exists_for_worktree env) = true
    · rw [htsdk2, f2, if_pos hu]
    · rw [htsdk2, f2, if_neg hu, htsdk1, f1, if_neg hu]

/-- Counterexample to claim C1 as stated: after a first successful
resolution in `envC1`, the second call in the same session performs a
registry query (an installed-version lookup of the companion plugin), so
the second call does not perform zero registry queries. -/
theorem second_resolution_queries_counterexample :
    (server_script_path envC1 VueExtension.new).1 = Except.ok SERVER_PATH
  ∧ Event.queryInstalled TS_PLUGIN_PACKAGE_NAME (Except.ok (some "1.0.0")) ∈
      (server_script_path envC1 (server_script_path envC1 VueExtension.new).2.1).2.2
  ∧ (Event.queryInstalled TS_PLUGIN_PACKAGE_NAME (Except.ok (some "1.0.0"))).isRegistryQuery
      = true := by
  decide

/-- Witness for `second_resolution_fast_path` at the concrete
environment `envC1`. -/
theorem second_resolution_fast_path_witness :
    SERVER_PATH = SERVER_PATH ∧ SERVER_PATH = SERVER_PATH
  ∧ (Event.queryInstalled TS_PLUGIN_PACKAGE_NAME (Except.ok (some "1.0.0"))).pkg ≠ PACKAGE_NAME
  ∧ (server_script_path envC1
        (server_script_path envC1 VueExtension.new).2.1).2.1.typescript_tsdk_path =
      (server_script_path envC1 VueExtension.new).2.1.typescript_tsdk_path :=
  second_resolution_fast_path envC1 VueExtension.new SERVER_PATH SERVER_PATH
    (Event.queryInstalled TS_PLUGIN_PACKAGE_NAME (Except.ok (some "1.0.0")))
    (by decide) rfl (by decide) (by decide)

/-- Claim C2 (amended): on the slow path, when the pinned-version install
is attempted and the install action fails, the install error is
propagated exactly when the server binary is still absent afterwards;
when the binary is present the install error is swallowed and resolution
succeeds if and only if the subsequent TypeScript step succeeds. -/
theorem primary_install_failure_policy (env : Env) (self : VueExtension) (e : String)
    (hslow : self.did_find_server = false ∨ env.serverExistsBefore = false)
    (hattempt : env.serverExistsBefore = false ∨
      (∃ iv, env.installedVersion PACKAGE_NAME = .ok iv ∧ iv ≠ some PINNED_SERVER_VERSION))
    (hfail : env.installPackage PACKAGE_NAME PINNED_SERVER_VERSION = .error e) :
    (env.serverExistsAfter = false → (server_script_path env self).1 = .error e)
  ∧ (env.serverExistsAfter = true →
      ((server_script_path env self).1 = .ok SERVER_PATH ↔
        (install_typescript_if_needed env self).1 = .ok ())) := by
  unfold server_script_path primary_install_then_finish finish_slow_path
  repeat' split
  all_goals simp_all
  all_goals (repeat' split)
  all_goals simp_all

/-- Counterexample to claim C2 as stated: in `envC2` the install attempt
is made and fails, the binary is present on disk afterwards, yet the
resolution still returns an error (the TypeScript registry is down), so
"returns an error iff the binary is absent" is false. -/
theorem primary_install_failure_iff_counterexample :
    Event.installPkg PACKAGE_NAME PINNED_SERVER_VERSION (Except.error "boom") ∈
      (server_script_path envC2 VueExtension.new).2.2
  ∧ envC2.serverExistsAfter = true
  ∧ (server_script_path envC2 VueExtension.new).1 = Except.error "net down" := by
  decide

/-- Witness for `primary_install_failure_policy` at `envC2`. -/
theorem primary_install_failure_policy_witness :
    (envC2.serverExistsAfter = false →
      (server_script_path envC2 VueExtension.new).1 = .error "boom")
  ∧ (envC2.serverExistsAfter = true →
      ((server_script_path envC2 VueExtension.new).1 = .ok SERVER_PATH ↔
        (install_typescript_if_needed envC2 VueExtension.new).1 = .ok ())) :=
  primary_install_failure_policy envC2 VueExtension.new "boom"
    (Or.inl rfl) (Or.inl rfl) rfl

/-- Claim C3 (amended): fast-path resolutions (server already found and
binary present) whose TypeScript step succeeds do attempt to ensure the
companion plugin is at its latest version: the installed-version query is
in the trace, the latest-version query is in the trace, and an install of
the plugin is in the trace whenever the two versions differ.  (Slow-path
resolutions skip the plugin step entirely; see the counterexample.) -/
theorem fast_path_ensures_plugin (env : Env) (self : VueExtension)
    (iv : Option String) (lv : String)
    (hfind : self.did_find_server = true)
    (hex : env.serverExistsBefore = true)
    (hts : (install_typescript_if_needed env self).1 = .ok ())
    (hiv : env.installedVersion TS_PLUGIN_PACKAGE_NAME = .ok iv)
    (hlv : env.latestVersion TS_PLUGIN_PACKAGE_NAME = .ok lv) :
    Event.queryInstalled TS_PLUGIN_PACKAGE_NAME (.ok iv) ∈ (server_script_path env self).2.2
  ∧ Event.queryLatest TS_PLUGIN_PACKAGE_NAME (.ok lv) ∈ (server_script_path env self).2.2
  ∧ (iv ≠ some lv →
      Event.installPkg TS_PLUGIN_PACKAGE_NAME lv
          (env.installPackage TS_PLUGIN_PACKAGE_NAME lv) ∈
        (server_script_path env self).2.2) := by
  obtain ⟨he1, he2, hqi, hql, hinst⟩ := itp_char env
  refine ⟨?_, ?_, fun hne => ?_⟩
  · rw [hiv] at hqi
    exact ssp_fast_itp_sub env self _ hfind hex hts hqi
  · have h2 := hql iv hiv
    rw [hlv] at h2
    exact ssp_fast_itp_sub env self _ hfind hex hts h2
  · exact ssp_fast_itp_sub env self _ hfind hex hts (hinst iv lv hiv hlv hne)

/-- Counterexample to claim C3 as stated: in `envC3` a first (slow-path)
resolution completes successfully while its trace contains no event about
the companion plugin at all — no installed-version query, no
latest-version query, no install. -/
theorem slow_path_skips_plugin_counterexample :
    (server_script_path envC3 VueExtension.new).1 = Except.ok SERVER_PATH
  ∧ (server_script_path envC3 VueExtension.new).2.2.all
      (fun ev => ev.pkg != TS_PLUGIN_PACKAGE_NAME) = true := by
  decide

/-- Witness for `fast_path_ensures_plugin` at `envC3w`, where the
installed plugin version differs from the latest. -/
theorem fast_path_ensures_plugin_witness :
    Event.queryInstalled TS_PLUGIN_PACKAGE_NAME (.ok (some "0.9.0")) ∈
      (server_script_path envC3w extFound).2.2
  ∧ Event.queryLatest TS_PLUGIN_PACKAGE_NAME (.ok "1.0.0") ∈
      (server_script_path envC3w extFound).2.2
  ∧ (some "0.9.0" ≠ some "1.0.0" →
      Event.installPkg TS_PLUGIN_PACKAGE_NAME "1.0.0" (Except.ok ()) ∈
        (server_script_path envC3w extFound).2.2) :=
  fast_path_ensures_plugin envC3w extFound (some "0.9.0") "1.0.0"
    rfl rfl (by decide) (by decide) (by decide)

/-- Claim C4: whenever a resolution call records a failed registry query
about the companion plugin, the resolution returns an error — there is no
fallback, regardless of the server binary being present. -/
theorem failed_plugin_query_fails_resolution (env : Env) (self : VueExtension) (ev : Event)
    (hev : ev ∈ (server_script_path env self).2.2)
    (hf : ev.isFailedPluginQuery = true) :
    resolutionFailed (server_script_path env self).1 = true := by
  cases hres : (server_script_path env self).1 with
  | error e => rfl
  | ok p =>
    have hnf := ssp_ok_no_failed env self p ev hres hev
    rw [hf] at hnf
    exact absurd hnf (by decide)

/-- Witness for `failed_plugin_query_fails_resolution` at `envC4`, where
the plugin installed-version query fails on the fast path even though the
server binary is present. -/
theorem failed_plugin_query_fails_resolution_witness :
    resolutionFailed (server_script_path envC4 extFound).1 = true :=
  failed_plugin_query_fails_resolution envC4 extFound
    (Event.queryInstalled TS_PLUGIN_PACKAGE_NAME (Except.error "down"))
    (by decide) (by decide)

end Vue

namespace Vue

set_option maxHeartbeats 2000000

/-- Claim C5 (amended): for a readable, well-formed manifest, when the
companion plugin is NOT declared the emitters set the plugin `location`
to the process current directory (the global install root), and when it
IS declared `get_ts_plugin_root_path` yields `none` and the emitters fill
`location` with the worktree root path — the field is always present. -/
theorem plugin_location_emission (env : Env) (txt : String) (pj : PackageJson)
    (hr : env.readPackageJson = .ok txt)
    (hp : env.parsePackageJson txt = .ok pj) :
    get_ts_plugin_root_path env =
      .ok (if (containsKey pj.dev_dependencies TS_PLUGIN_PACKAGE_NAME
            || containsKey pj.dependencies TS_PLUGIN_PACKAGE_NAME)
          then none else some env.currentDir)
  ∧ Except.map initOptionsPluginLocation
      (language_server_additional_initialization_options env "typescript-language-server") =
      .ok (some (if (containsKey pj.dev_dependencies TS_PLUGIN_PACKAGE_NAME
            || containsKey pj.dependencies TS_PLUGIN_PACKAGE_NAME)
          then env.worktreeRootPath else env.currentDir))
  ∧ Except.map workspaceConfigPluginLocation
      (language_server_additional_workspace_configuration env "vtsls") =
      .ok (some (if (containsKey pj.dev_dependencies TS_PLUGIN_PACKAGE_NAME
            || containsKey pj.dependencies TS_PLUGIN_PACKAGE_NAME)
          then env.worktreeRootPath else env.currentDir)) := by
  by_cases hd : (containsKey pj.dev_dependencies TS_PLUGIN_PACKAGE_NAME
      || containsKey pj.dependencies TS_PLUGIN_PACKAGE_NAME) = true
  all_goals
    simp_all [get_ts_plugin_root_path, hr, hp,
      language_server_additional_initialization_options,
      language_server_additional_workspace_configuration,
      initOptionsPluginLocation, workspaceConfigPluginLocation,
      Json.getField, Json.headElem, Json.asString, Except.map, List.find?]

/-- Counterexample to claim C5 as stated: with the plugin undeclared
(`envC5`) the emitted `location` is the process current directory, not
the worktree root; with the plugin declared (`envC5b`) the `location`
field is still present (filled with the worktree root), not omitted. -/
theorem plugin_location_counterexample :
    Except.map initOptionsPluginLocation
      (language_server_additional_initialization_options envC5 "typescript-language-server") =
      Except.ok (some "/ext/work")
  ∧ envC5.worktreeRootPath = "/home/project"
  ∧ ("/ext/work" : String) ≠ "/home/project"
  ∧ Except.map initOptionsPluginLocation
      (language_server_additional_initialization_options envC5b "typescript-language-server") =
      Except.ok (some "/home/project")
  ∧ Except.map workspaceConfigPluginLocation
      (language_server_additional_workspace_configuration envC5b "vtsls") =
      Except.ok (some "/home/project") := by
  decide

/-- Witness for `plugin_location_emission` at `envC5`. -/
theorem plugin_location_emission_witness :
    get_ts_plugin_root_path envC5 = .ok (some "/ext/work")
  ∧ Except.map initOptionsPluginLocation
      (language_server_additional_initialization_options envC5 "typescript-language-server") =
      .ok (some "/ext/work")
  ∧ Except.map workspaceConfigPluginLocation
      (language_server_additional_workspace_configuration envC5 "vtsls") =
      .ok (some "/ext/work") :=
  plugin_location_emission envC5 "pkg" pj_empty rfl rfl

/-- Claim C6: when the manifest declares `typescript` in either
dependency mapping, a resolution call performs no registry query and no
install for the `typescript` package and leaves the session SDK path
unchanged. -/
theorem declared_typescript_skips_install (env : Env) (self : VueExtension)
    (txt : String) (pj : PackageJson) (ev : Event)
    (hr : env.readPackageJson = .ok txt)
    (hp : env.parsePackageJson txt = .ok pj)
    (hdecl : (containsKey pj.dev_dependencies TYPESCRIPT_PACKAGE_NAME
      || containsKey pj.dependencies TYPESCRIPT_PACKAGE_NAME) = true)
    (hev : ev ∈ (server_script_path env self).2.2) :
    ev.pkg ≠ TYPESCRIPT_PACKAGE_NAME
  ∧ (server_script_path env self).2.1.typescript_tsdk_path = self.typescript_tsdk_path := by
  have hud : unwrapOrDefault (typescript_exists_for_worktree env) = true := by
    simp [unwrapOrDefault, typescript_exists_for_worktree, hr, hp, hdecl]
  have hskip := its_skip env self hud
  constructor
  · rcases ssp_events env self ev hev with h | h | h
    · rw [h]; decide
    · rw [hskip] at h; simp at h
    · rw [(itp_char env).1 ev h]; decide
  · rcases ssp_state_or_tsdk env self with h | h
    · rw [h]
    · rw [h, hskip]

/-- Witness for `declared_typescript_skips_install` at `envC6`. -/
theorem declared_typescript_skips_install_witness :
    (Event.queryInstalled PACKAGE_NAME (Except.ok (some "2.2.8"))).pkg ≠ TYPESCRIPT_PACKAGE_NAME
  ∧ (server_script_path envC6 VueExtension.new).2.1.typescript_tsdk_path =
      VueExtension.new.typescript_tsdk_path :=
  declared_typescript_skips_install envC6 VueExtension.new "pkg" pj_with_typescript
    (Event.queryInstalled PACKAGE_NAME (Except.ok (some "2.2.8")))
    rfl rfl (by decide) (by decide)

/-- Claim C7 (amended): a manifest that fails to parse is fatal for the
manifest-reading configuration operations — `get_ts_plugin_root_path` and
both emitters surface the wrapped parse error — but the resolution path
swallows it: `typescript_exists_for_worktree` errors, yet
`install_typescript_if_needed` defaults the check to `false` and proceeds
with the global install logic. -/
theorem manifest_parse_error_policy (env : Env) (self : VueExtension) (txt msg : String)
    (hr : env.readPackageJson = .ok txt)
    (hp : env.parsePackageJson txt = .error msg) :
    typescript_exists_for_worktree env = .error ("failed to parse package.json: " ++ msg)
  ∧ install_typescript_if_needed env self = install_typescript_core env self
  ∧ get_ts_plugin_root_path env = .error ("failed to parse package.json: " ++ msg)
  ∧ language_server_additional_initialization_options env "typescript-language-server" =
      .error ("failed to parse package.json: " ++ msg)
  ∧ language_server_additional_workspace_configuration env "vtsls" =
      .error ("failed to parse package.json: " ++ msg) := by
  have h1 : typescript_exists_for_worktree env =
      .error ("failed to parse package.json: " ++ msg) := by
    simp [typescript_exists_for_worktree, hr, hp]
  refine ⟨h1, ?_, ?_, ?_, ?_⟩
  · simp [install_typescript_if_needed, h1, unwrapOrDefault]
  · simp [get_ts_plugin_root_path, hr, hp]
  · simp [language_server_additional_initialization_options, get_ts_plugin_root_path, hr, hp]
  · simp [language_server_additional_workspace_configuration, get_ts_plugin_root_path, hr, hp]

/-- Counterexample to claim C7 as stated: in `envC7` the manifest text
does not parse, yet a resolution call succeeds — the parse error is not
surfaced by the resolution path. -/
theorem manifest_parse_error_counterexample :
    envC7.readPackageJson = Except.ok "not json"
  ∧ envC7.parsePackageJson "not json" = Except.error "bad"
  ∧ (server_script_path envC7 VueExtension.new).1 = Except.ok SERVER_PATH := by
  decide

/-- Witness for `manifest_parse_error_policy` at `envC7`. -/
theorem manifest_parse_error_policy_witness :
    typescript_exists_for_worktree envC7 = .error "failed to parse package.json: bad"
  ∧ install_typescript_if_needed envC7 VueExtension.new =
      install_typescript_core envC7 VueExtension.new
  ∧ get_ts_plugin_root_path envC7 = .error "failed to parse package.json: bad"
  ∧ language_server_additional_initialization_options envC7 "typescript-language-server" =
      .error "failed to parse package.json: bad"
  ∧ language_server_additional_workspace_configuration envC7 "vtsls" =
      .error "failed to parse package.json: bad" :=
  manifest_parse_error_policy envC7 VueExtension.new "not json" "bad" rfl rfl

end Vue

namespace Vue

set_option maxHeartbeats 2000000

/-- Claim C8: the completion-label mapping sends `Keyword` to the
`keyword` highlight and `Property` to the `tag` highlight, and produces
no label when the completion has no kind or a kind outside the fixed
table. -/
theorem completion_label_mapping (c : Completion) (k : CompletionKind) :
    (c.kind = some CompletionKind.Keyword → labelHighlight c = some "keyword")
  ∧ (c.kind = some CompletionKind.Property → labelHighlight c = some "tag")
  ∧ (c.kind = none → label_for_completion c = none)
  ∧ (c.kind = some k →
      k ∈ ([CompletionKind.Text, CompletionKind.Module, CompletionKind.Unit,
            CompletionKind.Enum, CompletionKind.Snippet, CompletionKind.Color,
            CompletionKind.File, CompletionKind.Reference, CompletionKind.Folder,
            CompletionKind.EnumMember, CompletionKind.Struct, CompletionKind.Event,
            CompletionKind.Operator, CompletionKind.TypeParameter] : List CompletionKind) →
      label_for_completion c = none) := by
  refine ⟨fun h => ?_, fun h => ?_, fun h => ?_, fun hk hmem => ?_⟩
  · cases hd : c.detail <;>
      simp [labelHighlight, label_for_completion, h, hd, highlight_name_for,
        CodeLabelSpan.literal]
  · cases hd : c.detail <;>
      simp [labelHighlight, label_for_completion, h, hd, highlight_name_for,
        CodeLabelSpan.literal]
  · simp [label_for_completion, h]
  · fin_cases hmem <;> simp [label_for_completion, hk, highlight_name_for]

/-- Witness for `completion_label_mapping` on a keyword completion. -/
theorem completion_label_mapping_witness :
    labelHighlight { label := "if", detail := none, kind := some CompletionKind.Keyword } =
      some "keyword" :=
  (completion_label_mapping
    { label := "if", detail := none, kind := some CompletionKind.Keyword }
    CompletionKind.Text).1 rfl

/-- Claim C9 (amended): every produced label has filter range starting at
0 with length the UTF-8 byte length of the completion name (Rust's
`String::len`), and its span list is the highlighted name span optionally
followed by a single-space separator span and the detail span. -/
theorem completion_label_shape (c : Completion) (l : CodeLabel)
    (k : CompletionKind) (hn : String)
    (h : label_for_completion c = some l)
    (hk : c.kind = some k)
    (hhn : highlight_name_for k = some hn) :
    l.filter_range = (0, c.label.utf8ByteSize)
  ∧ l.spans =
      (match c.detail with
        | some detail =>
          [CodeLabelSpan.literal c.label (some hn), CodeLabelSpan.literal " " none,
            CodeLabelSpan.literal detail none]
        | none => [CodeLabelSpan.literal c.label (some hn)]) := by
  obtain ⟨code, spans, fr⟩ := l
  cases hd : c.detail <;>
    simp_all [label_for_completion, hk, hhn, hd, CodeLabelSpan.literal]

/-- Counterexample to claim C9 as stated: for the one-character label
`é` (two UTF-8 bytes) the produced filter range has length 2, not the
character length 1. -/
theorem filter_range_byte_length_counterexample :
    Option.map (fun l => l.filter_range)
      (label_for_completion { label := "é", detail := none, kind := some CompletionKind.Keyword })
      = some (0, 2)
  ∧ ("é" : String).length = 1 := by
  decide

/-- Witness for `completion_label_shape` on a property completion with a
detail string. -/
theorem completion_label_shape_witness :
    ({ code := "", spans := [CodeLabelSpan.literal "foo" (some "tag"),
        CodeLabelSpan.literal " " none, CodeLabelSpan.literal "d" none],
        filter_range := (0, 3) } : CodeLabel).filter_range =
      (0, ("foo" : String).utf8ByteSize)
  ∧ ({ code := "", spans := [CodeLabelSpan.literal "foo" (some "tag"),
        CodeLabelSpan.literal " " none, CodeLabelSpan.literal "d" none],
        filter_range := (0, 3) } : CodeLabel).spans =
      [CodeLabelSpan.literal "foo" (some "tag"), CodeLabelSpan.literal " " none,
        CodeLabelSpan.literal "d" none] :=
  completion_label_shape
    { label := "foo", detail := some "d", kind := some CompletionKind.Property }
    { code := "", spans := [CodeLabelSpan.literal "foo" (some "tag"),
        CodeLabelSpan.literal " " none, CodeLabelSpan.literal "d" none],
        filter_range := (0, 3) }
    CompletionKind.Property "tag" (by decide) rfl rfl

/-- Claim C10: a resolution call that returns an error leaves
`did_find_server` exactly as it was at entry — a failed resolution never
marks the server as found. -/
theorem failed_resolution_preserves_did_find_server (env : Env) (self : VueExtension)
    (e : String)
    (hp : (server_script_path env self).1 = .error e) :
    (server_script_path env self).2.1.did_find_server = self.did_find_server := by
  obtain ⟨hdf, herr, htsdk, hevs⟩ := its_char env self
  unfold server_script_path primary_install_then_finish finish_slow_path at hp ⊢
  repeat' split
  all_goals simp_all
  all_goals (repeat' split at hp)
  all_goals simp_all

/-- Witness for `failed_resolution_preserves_did_find_server` at
`envC2`, whose resolution fails with the TypeScript registry error. -/
theorem failed_resolution_preserves_did_find_server_witness :
    (server_script_path envC2 VueExtension.new).2.1.did_find_server =
      VueExtension.new.did_find_server :=
  failed_resolution_preserves_did_find_server envC2 VueExtension.new "net down" (by decide)

end Vue
